import Mathlib

/-!
Verification of the relevance evaluation pipeline of reddit-content-analyzer.

The development shallowly embeds the Go code of the relevance service
(internal/services/relevancesvc.go: relevanceService.GetRelevantPosts,
evaluateSubredditPosts, getRelevanceScore, getRelevanceSummary), the mapper
(internal/services/mapper.go) and the data contracts
(internal/contracts/relevancerespdto.go, internal/infra/reddit/dto.go).

Modelling conventions:
- Go float64 values (embedding components, scores, thresholds) are modelled
  as real numbers; go error values are modelled as their message strings, and
  errors.Wrap(err, msg) from github.com/pkg/errors as the message
  msg ++ ": " ++ err, which is how the wrapped error prints and how the
  tests observe it (assert.Contains on err.Error()).
- The external collaborators (the LLM client and the reddit service) are an
  explicit environment of pure functions returning Except values, matching
  the interfaces ClientInterface and RedditService that the tests mock.
- Every pipeline function additionally returns the list of external calls it
  performs, in order, so that claims about which calls are issued are
  statable.
- A Go function returning (T, error) is modelled as an Except value: the
  error case of the Go code always returns the zero value of T together with
  the error, so no information is lost.
- A nil-pointer dereference is modelled as a distinguished outcome
  (GoResult.nilPanic) distinct from both normal return and error return.
- The float64 field CreatedUTC carries epoch seconds; the mapper converts it
  with time.Unix(int64(createdUTC), 0). No claim depends on fractional
  seconds, so the field is modelled as an integer and the conversion as the
  identity.
-/

/-- Embedded form of reddit.RedditPostData (internal/infra/reddit/dto.go). -/
structure RedditPostData where
  Title : String
  Selftext : String
  URL : String
  Score : Int
  NumComments : Int
  CreatedUTC : Int
  Permalink : String
  Stickied : Bool

/-- Embedded form of reddit.RedditChild. -/
structure RedditChild where
  Data : RedditPostData

/-- Embedded form of reddit.RedditData. -/
structure RedditData where
  Children : List RedditChild

/-- Embedded form of reddit.RedditResponse. -/
structure RedditResponse where
  Data : RedditData

/-- Embedded form of llm.Message (internal/infra/llm/client.go). -/
structure Message where
  Role : String
  Content : String

/-- Embedded form of contracts.SubRedditPostDto
(internal/contracts/relevancerespdto.go). -/
structure SubRedditPostDto where
  SubredditName : String
  Title : String
  Content : String
  Url : String
  Score : Int
  NumComments : Int
  CreatedAt : Int
  IsRelevant : Bool
  RelevanceScore : ℝ
  RelevanceSummary : String

/-- Embedded form of contracts.RelevanceResponseDto. -/
structure RelevanceResponseDto where
  Posts : List SubRedditPostDto

/-- Embedded form of the string constant contracts.SearchMethodSearch. -/
def SearchMethodSearch : String := "search"

/-- Embedded form of the string constant contracts.SearchMethodLatest. -/
def SearchMethodLatest : String := "latest"

/-- Embedded form of contracts.RelevanceRequestDto. SearchMethod is a string
type in Go (type SearchMethod string), so it is a String here. CreatedAfter
is a time.Time in Go, modelled as epoch seconds; it is read by no code path. -/
structure RelevanceRequestDto where
  Topic : String
  Subreddits : List String
  RelevanceThreshold : ℝ
  Limit : Int
  CreatedAfter : Int
  MinNumComments : Int
  SearchMethod : String

/-- Dot product of two real vectors, pairwise over the common length. -/
def dotProduct (a b : List ℝ) : ℝ := (List.zipWith (fun x y => x * y) a b).sum

/-- Euclidean magnitude of a real vector. -/
noncomputable def magnitude (v : List ℝ) : ℝ :=
  Real.sqrt ((v.map (fun x => x * x)).sum)

/-- Modelled from the spec: the implementation file of services.CosineSimilarity
is not under src/ (only its unit tests, services/cossimilarity_test.go, and its
caller in the relevance service are). Section 4.1 of the spec defines it as
cosine similarity dot(a,b) / (norm(a) * norm(b)), returning 0.0 when the two
vectors have different lengths and 0.0 when either vector has magnitude 0. -/
noncomputable def CosineSimilarity (a b : List ℝ) : ℝ :=
  if a.length ≠ b.length then 0
  else if magnitude a = 0 ∨ magnitude b = 0 then 0
  else dotProduct a b / (magnitude a * magnitude b)

/-- Environment of external collaborators: getEmbedding and chat embed
llm.ClientInterface; searchPosts and getPosts embed services.RedditService
(which forwards to the reddit client unchanged, adding only logging).
Each is a pure function from arguments to an Except value, exactly the shape
the unit tests give their mocks. -/
structure Env where
  getEmbedding : String → Except String (List ℝ)
  searchPosts : String → String → Int → Except String RedditResponse
  getPosts : String → Int → Except String RedditResponse
  chat : List Message → Except String String

/-- Embedded form of errors.Wrap(err, msg) from github.com/pkg/errors, as it
prints: the context message, a colon and a space, then the cause. -/
def wrap (msg cause : String) : String := msg ++ ": " ++ cause

/-- One external call performed by the pipeline, with its arguments. -/
inductive CallEvent where
  | embed (text : String)
  | search (subreddit query : String) (limit : Int)
  | latest (subreddit : String) (limit : Int)
  | chat (messages : List Message)

/-- Outcome of a Go function that can return normally, return an error, or
dereference a nil pointer. -/
inductive GoResult (α : Type) where
  | ok (a : α)
  | err (e : String)
  | nilPanic

/-- Placeholder for the Go fmt verb %f rendering of a float64. The decimal
rendering of binary floating point is not modelled: the rendered text only
ever flows into the chat prompt, and no claim depends on the prompt text,
only on the fact that a chat call is made with one user-role message. -/
def fmtFloat (_ : ℝ) : String := "%f"

/-- Embedded form of the Go fmt verb %t rendering of a bool. -/
def fmtBool (b : Bool) : String := if b then "true" else "false"

/-- Embedded form of the prompt built by relevanceService.getRelevanceSummary
with fmt.Sprintf; argument order and surrounding text follow the Go template. -/
def relevancePrompt (topic : String) (relevanceThreshold : ℝ) (isRelevant : Bool)
    (relevanceScore : ℝ) (title content : String) : String :=
  "Given the following title, content, and topic, generate an explanation of the relevance of the content to the topic. The explanation should be a single sentence.\n\t\n\t# Topic: \"" ++ topic
    ++ "\"\n\t# Relevance Threshold: " ++ fmtFloat relevanceThreshold
    ++ "\n\t# Is Relevant: " ++ fmtBool isRelevant
    ++ "\n\t# Relevance Score: " ++ fmtFloat relevanceScore
    ++ "\n\n\tReddit Post:\n\n\t# Title: \"" ++ title
    ++ "\"\n\t# Content: \n\t" ++ content ++ "\n\t"

/-- Embedded form of services.MapRedditResponseToSubredditPostDto
(internal/services/mapper.go). -/
def MapRedditResponseToSubredditPostDto (post : RedditChild) (subredditName : String)
    (relevanceScore : ℝ) (isRelevant : Bool) (relevanceSummary : String) :
    SubRedditPostDto :=
  ⟨subredditName, post.Data.Title, post.Data.Selftext, post.Data.URL,
   post.Data.Score, post.Data.NumComments, post.Data.CreatedUTC,
   isRelevant, relevanceScore, relevanceSummary⟩

/-- Embedded form of relevanceService.getRelevanceScore: builds the evaluation
text fmt.Sprintf("%s. %s", title, content), requests its embedding (wrapping a
failure with the context "error getting embedding"), and on success returns the
cosine similarity with the topic embedding. The second component records the
external calls performed. -/
noncomputable def getRelevanceScore (env : Env) (title content : String)
    (topicEmbedding : List ℝ) : Except String ℝ × List CallEvent :=
  (match env.getEmbedding (title ++ ". " ++ content) with
   | .error e => .error (wrap "error getting embedding" e)
   | .ok embedding => .ok (CosineSimilarity embedding topicEmbedding),
   [CallEvent.embed (title ++ ". " ++ content)])

/-- Embedded form of relevanceService.getRelevanceSummary: sends one user-role
message carrying the prompt to the chat collaborator, wrapping a failure with
the context "error getting chat response". -/
def getRelevanceSummary (env : Env) (title content topic : String)
    (relevanceThreshold relevanceScore : ℝ) (isRelevant : Bool) :
    Except String String × List CallEvent :=
  (match env.chat [⟨"user", relevancePrompt topic relevanceThreshold isRelevant relevanceScore title content⟩] with
   | .error e => .error (wrap "error getting chat response" e)
   | .ok response => .ok response,
   [CallEvent.chat [⟨"user", relevancePrompt topic relevanceThreshold isRelevant relevanceScore title content⟩]])

/-- Embedded form of the body of the loop in
relevanceService.evaluateSubredditPosts for a single post: score the post
(wrapping a failure with "error getting relevance score"), classify it with
isRelevant := relevanceScore >= relevanceThreshold, request the summary
(wrapping a failure with "error getting relevance summary"), and map the post
into its output dto. -/
noncomputable def evalPost (env : Env) (subredditName topic : String)
    (topicEmbedding : List ℝ) (relevanceThreshold : ℝ) (post : RedditChild) :
    Except String SubRedditPostDto × List CallEvent :=
  match getRelevanceScore env post.Data.Title post.Data.Selftext topicEmbedding with
  | (.error e, tr) => (.error (wrap "error getting relevance score" e), tr)
  | (.ok relevanceScore, tr) =>
    let isRelevant : Bool := decide (relevanceThreshold ≤ relevanceScore)
    match getRelevanceSummary env post.Data.Title post.Data.Selftext topic relevanceThreshold relevanceScore isRelevant with
    | (.error e, tr2) => (.error (wrap "error getting relevance summary" e), tr ++ tr2)
    | (.ok relevanceSummary, tr2) =>
      (.ok (MapRedditResponseToSubredditPostDto post subredditName relevanceScore isRelevant relevanceSummary), tr ++ tr2)

/-- Embedded form of the loop of relevanceService.evaluateSubredditPosts over
the retrieved children, in retrieval order, stopping at the first failing
post and discarding every already-built dto. -/
noncomputable def evalPosts (env : Env) (subredditName topic : String)
    (topicEmbedding : List ℝ) (relevanceThreshold : ℝ) :
    List RedditChild → Except String (List SubRedditPostDto) × List CallEvent
  | [] => (.ok [], [])
  | post :: rest =>
    match evalPost env subredditName topic topicEmbedding relevanceThreshold post with
    | (.error e, tr) => (.error e, tr)
    | (.ok dto, tr) =>
      match evalPosts env subredditName topic topicEmbedding relevanceThreshold rest with
      | (.error e, tr2) => (.error e, tr ++ tr2)
      | (.ok dtos, tr2) => (.ok (dto :: dtos), tr ++ tr2)

/-- Embedded form of relevanceService.evaluateSubredditPosts: ranging over
subredditPosts.Data.Children dereferences the subredditPosts pointer, so a nil
argument is the nilPanic outcome; otherwise the children are evaluated in
order. -/
noncomputable def evaluateSubredditPosts (env : Env) (subredditName : String)
    (subredditPosts : Option RedditResponse) (topic : String)
    (topicEmbedding : List ℝ) (relevanceThreshold : ℝ) :
    GoResult (List SubRedditPostDto) × List CallEvent :=
  match subredditPosts with
  | none => (.nilPanic, [])
  | some r =>
    match evalPosts env subredditName topic topicEmbedding relevanceThreshold r.Data.Children with
    | (.error e, tr) => (.err e, tr)
    | (.ok dtos, tr) => (.ok dtos, tr)

/-- Embedded form of the switch on request.SearchMethod inside the subreddit
loop of relevanceService.GetRelevantPosts: the search case calls
redditService.SearchPosts(subreddit, topic, limit), the latest case calls
redditService.GetPosts(subreddit, limit), each wrapping a failure with the
context "error getting subreddit posts"; any other value matches no case, so
no call is made and the subredditPosts pointer keeps its nil zero value. -/
def retrieveSubredditPosts (env : Env) (searchMethod topic : String) (limit : Int)
    (subreddit : String) : Except String (Option RedditResponse) × List CallEvent :=
  if searchMethod = SearchMethodSearch then
    (match env.searchPosts subreddit topic limit with
     | .error e => .error (wrap "error getting subreddit posts" e)
     | .ok r => .ok (some r),
     [CallEvent.search subreddit topic limit])
  else if searchMethod = SearchMethodLatest then
    (match env.getPosts subreddit limit with
     | .error e => .error (wrap "error getting subreddit posts" e)
     | .ok r => .ok (some r),
     [CallEvent.latest subreddit limit])
  else
    (.ok none, [])

/-- Embedded form of the for-loop over request.Subreddits in
relevanceService.GetRelevantPosts: per subreddit, retrieve (switch on the
search method), evaluate (wrapping an evaluation failure with the context
"error evaluating subreddit posts"), and append the resulting dtos; the first
failure aborts the loop and discards the accumulator. -/
noncomputable def processSubreddits (env : Env) (searchMethod topic : String)
    (limit : Int) (topicEmbedding : List ℝ) (relevanceThreshold : ℝ) :
    List String → GoResult (List SubRedditPostDto) × List CallEvent
  | [] => (.ok [], [])
  | subreddit :: rest =>
    match retrieveSubredditPosts env searchMethod topic limit subreddit with
    | (.error e, tr) => (.err e, tr)
    | (.ok subredditPosts, tr) =>
      match evaluateSubredditPosts env subreddit subredditPosts topic topicEmbedding relevanceThreshold with
      | (.nilPanic, tr2) => (.nilPanic, tr ++ tr2)
      | (.err e, tr2) => (.err (wrap "error evaluating subreddit posts" e), tr ++ tr2)
      | (.ok dtos, tr2) =>
        match processSubreddits env searchMethod topic limit topicEmbedding relevanceThreshold rest with
        | (.ok more, tr3) => (.ok (dtos ++ more), tr ++ tr2 ++ tr3)
        | (.err e, tr3) => (.err e, tr ++ tr2 ++ tr3)
        | (.nilPanic, tr3) => (.nilPanic, tr ++ tr2 ++ tr3)

/-- Embedded form of relevanceService.GetRelevantPosts: request the topic
embedding once (wrapping a failure with the context "error getting topic
embedding"), then process the subreddits in request order; the error outcome
models the Go return of the zero RelevanceResponseDto together with a non-nil
error. -/
noncomputable def GetRelevantPosts (env : Env) (request : RelevanceRequestDto) :
    GoResult RelevanceResponseDto × List CallEvent :=
  match env.getEmbedding request.Topic with
  | .error e =>
    (.err (wrap "error getting topic embedding" e), [CallEvent.embed request.Topic])
  | .ok topicEmbedding =>
    match processSubreddits env request.SearchMethod request.Topic request.Limit topicEmbedding request.RelevanceThreshold request.Subreddits with
    | (.ok dtos, tr) => (.ok ⟨dtos⟩, CallEvent.embed request.Topic :: tr)
    | (.err e, tr) => (.err e, CallEvent.embed request.Topic :: tr)
    | (.nilPanic, tr) => (.nilPanic, CallEvent.embed request.Topic :: tr)

/-- Children returned by the content source for one subreddit under the given
request parameters, empty when retrieval fails or makes no call. -/
def retrievedChildren (env : Env) (searchMethod topic : String) (limit : Int)
    (subreddit : String) : List RedditChild :=
  match (retrieveSubredditPosts env searchMethod topic limit subreddit).1 with
  | .ok (some r) => r.Data.Children
  | _ => []

/-- Identity of an output element: the source it carries plus the retrieved
title and body it was built from. -/
def postKey (p : SubRedditPostDto) : String × String × String :=
  (p.SubredditName, p.Title, p.Content)

/-- Both external calls made when evaluating one post succeed: the embedding
of the evaluation text, and the chat call with the prompt built from the
resulting score and classification. -/
def itemEvalCallsOk (env : Env) (topic : String) (topicEmbedding : List ℝ)
    (relevanceThreshold : ℝ) (post : RedditChild) : Prop :=
  ∃ emb, env.getEmbedding (post.Data.Title ++ ". " ++ post.Data.Selftext) = .ok emb ∧
    ∃ resp, env.chat [⟨"user",
      relevancePrompt topic relevanceThreshold
        (decide (relevanceThreshold ≤ CosineSimilarity emb topicEmbedding))
        (CosineSimilarity emb topicEmbedding)
        post.Data.Title post.Data.Selftext⟩] = .ok resp

/-- An error message wraps the context ctx somewhere in its chain when it
contains ctx followed by the separator that errors.Wrap inserts. -/
def wrappedWith (ctx msg : String) : Prop :=
  ∃ pre rest, msg = pre ++ wrap ctx rest

/-- Concrete post used by the concrete scenarios below. -/
def post1 : RedditChild := ⟨⟨"T", "C", "u", 1, 2, 3, "p", false⟩⟩

/-- Concrete one-post retrieval response. -/
def respOne : RedditResponse := ⟨⟨[post1]⟩⟩

/-- Environment in which every collaborator call succeeds; every embedding is
the one-dimensional vector [1]. -/
noncomputable def envOk : Env :=
  ⟨fun _ => .ok [1],
   fun _ _ _ => .ok respOne,
   fun _ _ => .ok respOne,
   fun _ => .ok "sum"⟩

/-- Environment whose embedding collaborator is down. -/
noncomputable def envDown : Env :=
  ⟨fun _ => .error "llm down",
   fun _ _ _ => .ok respOne,
   fun _ _ => .ok respOne,
   fun _ => .ok "sum"⟩

/-- Environment in which the topic embeds to [1] and every item text embeds to
[-1], making the item score the cosine similarity of opposite vectors. -/
noncomputable def envNeg : Env :=
  ⟨fun text => if text = "t" then .ok [1] else .ok [-1],
   fun _ _ _ => .ok respOne,
   fun _ _ => .ok respOne,
   fun _ => .ok "sum"⟩

/-- Environment in which the topic embedding succeeds and every item embedding
fails with cause boom. -/
noncomputable def envBoom : Env :=
  ⟨fun text => if text = "t" then .ok [1] else .error "boom",
   fun _ _ _ => .ok respOne,
   fun _ _ => .ok respOne,
   fun _ => .ok "sum"⟩

/-- Concrete request: one subreddit, search method, threshold 1. -/
noncomputable def reqThr1 : RelevanceRequestDto := ⟨"t", ["s"], 1, 5, 0, 0, "search"⟩

/-- Concrete request: one subreddit, search method, threshold 0. -/
noncomputable def reqThr0 : RelevanceRequestDto := ⟨"t", ["s"], 0, 5, 0, 0, "search"⟩

/-- Concrete request with an empty subreddit list. -/
noncomputable def reqEmpty : RelevanceRequestDto := ⟨"t", [], 1, 5, 0, 0, "search"⟩

/-- Concrete request whose search method is neither search nor latest. -/
noncomputable def reqBogus : RelevanceRequestDto := ⟨"t", ["s"], 1, 5, 0, 0, "bogus"⟩

/-- Output dto of the run of envOk with reqThr1. -/
noncomputable def dtoThr1 : SubRedditPostDto :=
  MapRedditResponseToSubredditPostDto post1 "s" (CosineSimilarity [1] [1])
    (decide ((1 : ℝ) ≤ CosineSimilarity [1] [1])) "sum"

/-- Output dto of the run of envOk with reqThr0. -/
noncomputable def dtoThr0 : SubRedditPostDto :=
  MapRedditResponseToSubredditPostDto post1 "s" (CosineSimilarity [1] [1])
    (decide ((0 : ℝ) ≤ CosineSimilarity [1] [1])) "sum"

/-- Output dto of the run of envNeg with reqThr0: its score is the cosine
similarity of opposite vectors. -/
noncomputable def dtoNeg : SubRedditPostDto :=
  MapRedditResponseToSubredditPostDto post1 "s" (CosineSimilarity [-1] [1])
    (decide ((0 : ℝ) ≤ CosineSimilarity [-1] [1])) "sum"

/-! Helper lemmas. -/

/-- A list of squares sums to zero exactly when every entry is zero. -/
lemma magnitude_eq_zero_of_all_zero (v : List ℝ) (h : ∀ x ∈ v, x = 0) :
    magnitude v = 0 := by
  have hs : ((v.map (fun x => x * x)).sum) = 0 := by
    apply List.sum_eq_zero
    intro y hy
    rcases List.mem_map.mp hy with ⟨x, hx, rfl⟩
    rw [h x hx, mul_zero]
  rw [magnitude, hs, Real.sqrt_zero]

/-- The magnitude of the one-dimensional vector [1] is 1. -/
lemma magnitude_one : magnitude [(1 : ℝ)] = 1 := by
  simp [magnitude]

/-- The magnitude of the one-dimensional vector [-1] is 1. -/
lemma magnitude_neg_one : magnitude [(-1 : ℝ)] = 1 := by
  simp [magnitude]

/-- Cosine similarity of [1] with [1] is 1. -/
lemma cos_one_one : CosineSimilarity [(1 : ℝ)] [1] = 1 := by
  rw [CosineSimilarity]
  simp [magnitude_one, dotProduct]

/-- Cosine similarity of [-1] with [1] is -1. -/
lemma cos_neg_one : CosineSimilarity [(-1 : ℝ)] [1] = -1 := by
  rw [CosineSimilarity]
  simp [magnitude_one, magnitude_neg_one, dotProduct]

/-! Claim theorems and their witnesses. -/

/-- C5: for every pair of input vectors a and b, CosineSimilarity returns
exactly 0 (without failing) when the lengths differ, returns 0 when either
vector has magnitude 0 (in particular when a vector is all-zero), and for
equal-length vectors with nonzero magnitudes returns
dot(a,b) / (norm(a) * norm(b)). -/
theorem c5_cosineSimilarity_spec (a b : List ℝ) :
    (a.length ≠ b.length → CosineSimilarity a b = 0) ∧
    (magnitude a = 0 ∨ magnitude b = 0 → CosineSimilarity a b = 0) ∧
    ((∀ x ∈ a, x = 0) → CosineSimilarity a b = 0) ∧
    (a.length = b.length → magnitude a ≠ 0 → magnitude b ≠ 0 →
      CosineSimilarity a b = dotProduct a b / (magnitude a * magnitude b)) := by
  refine ⟨fun h => by simp [CosineSimilarity, h], fun h => ?_, fun h => ?_,
    fun h1 h2 h3 => ?_⟩
  · by_cases h1 : a.length = b.length
    · simp [CosineSimilarity, h1, h]
    · simp [CosineSimilarity, h1]
  · by_cases h1 : a.length = b.length
    · simp [CosineSimilarity, h1, magnitude_eq_zero_of_all_zero a h]
    · simp [CosineSimilarity, h1]
  · simp [CosineSimilarity, h1, h2, h3]

/-- Witness for C5 at concrete inputs: differing lengths, all-zero vectors,
and a pair of nonzero equal-length vectors. -/
theorem c5_cosineSimilarity_spec_witness :
    CosineSimilarity [(1 : ℝ), 2, 3] [1, 2] = 0 ∧
    CosineSimilarity [(0 : ℝ), 0, 0] [0, 0, 0] = 0 ∧
    CosineSimilarity [(1 : ℝ)] [1] = dotProduct [1] [1] / (magnitude [1] * magnitude [1]) := by
  refine ⟨(c5_cosineSimilarity_spec [1, 2, 3] [1, 2]).1 (by simp),
    (c5_cosineSimilarity_spec [0, 0, 0] [0, 0, 0]).2.2.1 ?_,
    (c5_cosineSimilarity_spec [1] [1]).2.2.2 rfl ?_ ?_⟩
  · intro x hx
    simp at hx
    exact hx
  · rw [magnitude_one]; exact one_ne_zero
  · rw [magnitude_one]; exact one_ne_zero

/-- C10: two requests that differ only in CreatedAfter and MinNumComments
produce identical runs: the same outcome and the same external calls. -/
theorem c10_unused_fields_irrelevant (env : Env) (topic : String)
    (subreddits : List String) (relevanceThreshold : ℝ) (limit : Int)
    (a1 m1 a2 m2 : Int) (searchMethod : String) :
    GetRelevantPosts env ⟨topic, subreddits, relevanceThreshold, limit, a1, m1, searchMethod⟩ =
      GetRelevantPosts env ⟨topic, subreddits, relevanceThreshold, limit, a2, m2, searchMethod⟩ :=
  rfl

/-- C7: the text sent to the embedding collaborator for an item is exactly the
title, the two-character separator, then the body; with an empty body the
trailing separator and empty segment are kept; and within the evaluation of a
post the embedding call comes first, on exactly that text. -/
theorem c7_item_embedding_text (env : Env) (title content : String)
    (topicEmbedding : List ℝ) (subredditName topic : String)
    (relevanceThreshold : ℝ) (post : RedditChild) :
    (getRelevanceScore env title content topicEmbedding).2
      = [CallEvent.embed (title ++ ". " ++ content)] ∧
    (content = "" →
      (getRelevanceScore env title content topicEmbedding).2
        = [CallEvent.embed (title ++ ". ")]) ∧
    (∃ tr, (evalPost env subredditName topic topicEmbedding relevanceThreshold post).2
      = CallEvent.embed (post.Data.Title ++ ". " ++ post.Data.Selftext) :: tr) := by
  refine ⟨rfl, fun h => ?_, ?_⟩
  · subst h
    simp [getRelevanceScore]
  · cases hemb : env.getEmbedding (post.Data.Title ++ ". " ++ post.Data.Selftext) with
    | error e => exact ⟨[], by simp [evalPost, getRelevanceScore, hemb]⟩
    | ok emb =>
      simp only [evalPost, getRelevanceScore, getRelevanceSummary, hemb]
      split
      · exact ⟨_, rfl⟩
      · exact ⟨_, rfl⟩

/-- Witness for C7: with an empty body the text embedded is the title followed
by the separator alone. -/
theorem c7_item_embedding_text_witness :
    (getRelevanceScore envOk "T" "" [1]).2 = [CallEvent.embed "T. "] :=
  (c7_item_embedding_text envOk "T" "" [1] "s" "t" 1 post1).2.1 rfl

/-! Evaluation and inversion lemmas for the per-item pipeline. -/

/-- Evaluation of getRelevanceScore when the embedding call fails. -/
lemma getRelevanceScore_err (env : Env) (title content : String)
    (topicEmbedding : List ℝ) (c : String)
    (h : env.getEmbedding (title ++ ". " ++ content) = .error c) :
    getRelevanceScore env title content topicEmbedding =
      (.error (wrap "error getting embedding" c),
       [CallEvent.embed (title ++ ". " ++ content)]) := by
  simp [getRelevanceScore, h]

/-- Evaluation of getRelevanceScore when the embedding call succeeds. -/
lemma getRelevanceScore_ok (env : Env) (title content : String)
    (topicEmbedding emb : List ℝ)
    (h : env.getEmbedding (title ++ ". " ++ content) = .ok emb) :
    getRelevanceScore env title content topicEmbedding =
      (.ok (CosineSimilarity emb topicEmbedding),
       [CallEvent.embed (title ++ ". " ++ content)]) := by
  simp [getRelevanceScore, h]

/-- Evaluation of evalPost when the item embedding call fails: the cause comes
back wrapped first with "error getting embedding", then with "error getting
relevance score", and only the embedding call was made. -/
lemma evalPost_embed_err (env : Env) (subredditName topic : String)
    (topicEmbedding : List ℝ) (relevanceThreshold : ℝ) (post : RedditChild)
    (c : String)
    (h : env.getEmbedding (post.Data.Title ++ ". " ++ post.Data.Selftext) = .error c) :
    evalPost env subredditName topic topicEmbedding relevanceThreshold post =
      (.error (wrap "error getting relevance score" (wrap "error getting embedding" c)),
       [CallEvent.embed (post.Data.Title ++ ". " ++ post.Data.Selftext)]) := by
  have hg := getRelevanceScore_err env post.Data.Title post.Data.Selftext topicEmbedding c h
  simp [evalPost, hg]

/-- Evaluation of evalPost when both collaborator calls succeed. -/
lemma evalPost_ok_eval (env : Env) (subredditName topic : String)
    (topicEmbedding emb : List ℝ) (relevanceThreshold : ℝ) (post : RedditChild)
    (resp : String)
    (h1 : env.getEmbedding (post.Data.Title ++ ". " ++ post.Data.Selftext) = .ok emb)
    (h2 : env.chat [⟨"user", relevancePrompt topic relevanceThreshold
        (decide (relevanceThreshold ≤ CosineSimilarity emb topicEmbedding))
        (CosineSimilarity emb topicEmbedding)
        post.Data.Title post.Data.Selftext⟩] = .ok resp) :
    evalPost env subredditName topic topicEmbedding relevanceThreshold post =
      (.ok (MapRedditResponseToSubredditPostDto post subredditName
              (CosineSimilarity emb topicEmbedding)
              (decide (relevanceThreshold ≤ CosineSimilarity emb topicEmbedding)) resp),
       [CallEvent.embed (post.Data.Title ++ ". " ++ post.Data.Selftext),
        CallEvent.chat [⟨"user", relevancePrompt topic relevanceThreshold
          (decide (relevanceThreshold ≤ CosineSimilarity emb topicEmbedding))
          (CosineSimilarity emb topicEmbedding)
          post.Data.Title post.Data.Selftext⟩]]) := by
  have hg := getRelevanceScore_ok env post.Data.Title post.Data.Selftext topicEmbedding emb h1
  simp [evalPost, hg, getRelevanceSummary, h2]

/-- Evaluation of evalPost when the embedding succeeds and the chat fails. -/
lemma evalPost_chat_err (env : Env) (subredditName topic : String)
    (topicEmbedding emb : List ℝ) (relevanceThreshold : ℝ) (post : RedditChild)
    (c : String)
    (h1 : env.getEmbedding (post.Data.Title ++ ". " ++ post.Data.Selftext) = .ok emb)
    (h2 : env.chat [⟨"user", relevancePrompt topic relevanceThreshold
        (decide (relevanceThreshold ≤ CosineSimilarity emb topicEmbedding))
        (CosineSimilarity emb topicEmbedding)
        post.Data.Title post.Data.Selftext⟩] = .error c) :
    evalPost env subredditName topic topicEmbedding relevanceThreshold post =
      (.error (wrap "error getting relevance summary" (wrap "error getting chat response" c)),
       [CallEvent.embed (post.Data.Title ++ ". " ++ post.Data.Selftext),
        CallEvent.chat [⟨"user", relevancePrompt topic relevanceThreshold
          (decide (relevanceThreshold ≤ CosineSimilarity emb topicEmbedding))
          (CosineSimilarity emb topicEmbedding)
          post.Data.Title post.Data.Selftext⟩]]) := by
  have hg := getRelevanceScore_ok env post.Data.Title post.Data.Selftext topicEmbedding emb h1
  simp [evalPost, hg, getRelevanceSummary, h2]

/-- Inversion: a successful evalPost means both collaborator calls succeeded,
and the output dto is the mapped post with the cosine score and the threshold
classification. -/
lemma evalPost_ok_spec (env : Env) (subredditName topic : String)
    (topicEmbedding : List ℝ) (relevanceThreshold : ℝ) (post : RedditChild)
    (dto : SubRedditPostDto)
    (h : (evalPost env subredditName topic topicEmbedding relevanceThreshold post).1 = .ok dto) :
    ∃ emb, env.getEmbedding (post.Data.Title ++ ". " ++ post.Data.Selftext) = .ok emb ∧
      ∃ resp, env.chat [⟨"user", relevancePrompt topic relevanceThreshold
          (decide (relevanceThreshold ≤ CosineSimilarity emb topicEmbedding))
          (CosineSimilarity emb topicEmbedding)
          post.Data.Title post.Data.Selftext⟩] = .ok resp ∧
        dto = MapRedditResponseToSubredditPostDto post subredditName
          (CosineSimilarity emb topicEmbedding)
          (decide (relevanceThreshold ≤ CosineSimilarity emb topicEmbedding)) resp := by
  cases hemb : env.getEmbedding (post.Data.Title ++ ". " ++ post.Data.Selftext) with
  | error c =>
    rw [evalPost_embed_err env subredditName topic topicEmbedding relevanceThreshold post c hemb] at h
    simp at h
  | ok emb =>
    cases hchat : env.chat [⟨"user", relevancePrompt topic relevanceThreshold
        (decide (relevanceThreshold ≤ CosineSimilarity emb topicEmbedding))
        (CosineSimilarity emb topicEmbedding)
        post.Data.Title post.Data.Selftext⟩] with
    | error c =>
      rw [evalPost_chat_err env subredditName topic topicEmbedding emb relevanceThreshold post c hemb hchat] at h
      simp at h
    | ok resp =>
      rw [evalPost_ok_eval env subredditName topic topicEmbedding emb relevanceThreshold post resp hemb hchat] at h
      exact ⟨emb, rfl, resp, hchat, (Except.ok.inj h).symm⟩

/-- Inversion for a successful evalPosts run: one output dto per input post in
input order (witnessed through postKey), every collaborator call succeeded,
and every output dto is classified by comparing its score to the threshold. -/
lemma evalPosts_ok_spec (env : Env) (subredditName topic : String)
    (topicEmbedding : List ℝ) (relevanceThreshold : ℝ) :
    ∀ (children : List RedditChild) (dtos : List SubRedditPostDto),
      (evalPosts env subredditName topic topicEmbedding relevanceThreshold children).1 = .ok dtos →
      dtos.map postKey
          = children.map (fun post => (subredditName, post.Data.Title, post.Data.Selftext)) ∧
        (∀ post ∈ children, itemEvalCallsOk env topic topicEmbedding relevanceThreshold post) ∧
        (∀ dto ∈ dtos, dto.IsRelevant = decide (relevanceThreshold ≤ dto.RelevanceScore)) := by
  intro children
  induction children with
  | nil =>
    intro dtos h
    simp [evalPosts] at h
    subst h
    simp
  | cons post rest ih =>
    intro dtos h
    rcases hp : evalPost env subredditName topic topicEmbedding relevanceThreshold post with ⟨res, tr⟩
    simp only [evalPosts] at h
    rw [hp] at h
    cases res with
    | error e => simp at h
    | ok dto =>
      rcases hr : evalPosts env subredditName topic topicEmbedding relevanceThreshold rest with ⟨res2, tr2⟩
      rw [hr] at h
      cases res2 with
      | error e => simp at h
      | ok dtos2 =>
        simp at h
        subst h
        have hdto1 : (evalPost env subredditName topic topicEmbedding relevanceThreshold post).1 = .ok dto := by
          rw [hp]
        have hrest : (evalPosts env subredditName topic topicEmbedding relevanceThreshold rest).1 = .ok dtos2 := by
          rw [hr]
        obtain ⟨hmap, hcalls, hclass⟩ := ih dtos2 hrest
        obtain ⟨emb, hemb, resp, hchat, hshape⟩ :=
          evalPost_ok_spec env subredditName topic topicEmbedding relevanceThreshold post dto hdto1
        refine ⟨?_, ?_, ?_⟩
        · rw [List.map_cons, List.map_cons, hmap, hshape]
          rfl
        · intro q hq
          rcases List.mem_cons.mp hq with hq1 | hq2
          · subst hq1
            exact ⟨emb, hemb, resp, hchat⟩
          · exact hcalls q hq2
        · intro d hd
          rcases List.mem_cons.mp hd with hd1 | hd2
          · subst hd1
            rw [hshape]
            rfl
          · exact hclass d hd2

/-- When every post of a prefix evaluates successfully and the next post fails
at the item-embedding call, evalPosts fails with the cause wrapped first with
"error getting embedding" and then with "error getting relevance score". -/
lemma evalPosts_prefix_err (env : Env) (subredditName topic : String)
    (topicEmbedding : List ℝ) (relevanceThreshold : ℝ) :
    ∀ (pre : List RedditChild) (p : RedditChild) (rest : List RedditChild) (c : String),
      (∀ q ∈ pre, ∃ dto, (evalPost env subredditName topic topicEmbedding relevanceThreshold q).1 = .ok dto) →
      env.getEmbedding (p.Data.Title ++ ". " ++ p.Data.Selftext) = .error c →
      (evalPosts env subredditName topic topicEmbedding relevanceThreshold (pre ++ p :: rest)).1 =
        .error (wrap "error getting relevance score" (wrap "error getting embedding" c)) := by
  intro pre
  induction pre with
  | nil =>
    intro p rest c _ hfail
    rw [List.nil_append]
    simp [evalPosts, evalPost_embed_err env subredditName topic topicEmbedding relevanceThreshold p c hfail]
  | cons q pre ih =>
    intro p rest c hpre hfail
    obtain ⟨dto, hq⟩ := hpre q (List.mem_cons_self q pre)
    rcases hq2 : evalPost env subredditName topic topicEmbedding relevanceThreshold q with ⟨res, tr⟩
    rw [hq2] at hq
    have hrec := ih p rest c (fun r hr => hpre r (List.mem_cons_of_mem q hr)) hfail
    rcases hr2 : evalPosts env subredditName topic topicEmbedding relevanceThreshold (pre ++ p :: rest) with ⟨res2, tr2⟩
    rw [hr2] at hrec
    cases res with
    | error e => simp at hq
    | ok dto2 =>
      cases res2 with
      | ok dtos2 => simp at hrec
      | error e2 =>
        rw [List.cons_append]
        simp only [evalPosts]
        rw [hq2, hr2]
        simp at hrec
        subst hrec
        rfl

/-- Every call event emitted by evalPosts is either the embedding of the
evaluation text of one of the given posts, or a chat call. -/
lemma evalPosts_trace_spec (env : Env) (subredditName topic : String)
    (topicEmbedding : List ℝ) (relevanceThreshold : ℝ) :
    ∀ (children : List RedditChild),
      ∀ ev ∈ (evalPosts env subredditName topic topicEmbedding relevanceThreshold children).2,
        (∃ post ∈ children,
          ev = CallEvent.embed (post.Data.Title ++ ". " ++ post.Data.Selftext)) ∨
        (∃ msgs, ev = CallEvent.chat msgs) := by
  intro children
  induction children with
  | nil =>
    intro ev hev
    simp [evalPosts] at hev
  | cons post rest ih =>
    intro ev hev
    simp only [evalPosts] at hev
    cases hemb : env.getEmbedding (post.Data.Title ++ ". " ++ post.Data.Selftext) with
    | error c =>
      rw [evalPost_embed_err env subredditName topic topicEmbedding relevanceThreshold post c hemb] at hev
      simp at hev
      exact Or.inl ⟨post, List.mem_cons_self post rest, hev⟩
    | ok emb =>
      cases hchat : env.chat [⟨"user", relevancePrompt topic relevanceThreshold
          (decide (relevanceThreshold ≤ CosineSimilarity emb topicEmbedding))
          (CosineSimilarity emb topicEmbedding)
          post.Data.Title post.Data.Selftext⟩] with
      | error c =>
        rw [evalPost_chat_err env subredditName topic topicEmbedding emb relevanceThreshold post c hemb hchat] at hev
        simp at hev
        rcases hev with hev | hev
        · exact Or.inl ⟨post, List.mem_cons_self post rest, hev⟩
        · exact Or.inr ⟨_, hev⟩
      | ok resp =>
        rw [evalPost_ok_eval env subredditName topic topicEmbedding emb relevanceThreshold post resp hemb hchat] at hev
        rcases hr : evalPosts env subredditName topic topicEmbedding relevanceThreshold rest with ⟨res2, tr2⟩
        rw [hr] at hev
        have htr2 : ∀ e ∈ tr2,
            (∃ post ∈ rest, e = CallEvent.embed (post.Data.Title ++ ". " ++ post.Data.Selftext)) ∨
            (∃ msgs, e = CallEvent.chat msgs) := by
          intro e he
          have : e ∈ (evalPosts env subredditName topic topicEmbedding relevanceThreshold rest).2 := by
            rw [hr]
            exact he
          exact ih e this
        cases res2 with
        | error e2 =>
          simp at hev
          rcases hev with hev | hev | hev
          · exact Or.inl ⟨post, List.mem_cons_self post rest, hev⟩
          · exact Or.inr ⟨_, hev⟩
          · rcases htr2 ev hev with ⟨q, hq, hq2⟩ | hc
            · exact Or.inl ⟨q, List.mem_cons_of_mem post hq, hq2⟩
            · exact Or.inr hc
        | ok dtos2 =>
          simp at hev
          rcases hev with hev | hev | hev
          · exact Or.inl ⟨post, List.mem_cons_self post rest, hev⟩
          · exact Or.inr ⟨_, hev⟩
          · rcases htr2 ev hev with ⟨q, hq, hq2⟩ | hc
            · exact Or.inl ⟨q, List.mem_cons_of_mem post hq, hq2⟩
            · exact Or.inr hc

/-! Lemmas about retrieval and the subreddit loop. -/

/-- With a search method that is neither search nor latest, the switch matches
no case: no call is made and the retrieval result stays nil. -/
lemma retrieve_invalid (env : Env) (searchMethod topic : String) (limit : Int)
    (subreddit : String) (h1 : searchMethod ≠ SearchMethodSearch)
    (h2 : searchMethod ≠ SearchMethodLatest) :
    retrieveSubredditPosts env searchMethod topic limit subreddit = (.ok none, []) := by
  simp [retrieveSubredditPosts, h1, h2]

/-- With a valid search method, retrieval never produces a nil response. -/
lemma retrieve_valid_not_none (env : Env) (searchMethod topic : String) (limit : Int)
    (subreddit : String)
    (hm : searchMethod = SearchMethodSearch ∨ searchMethod = SearchMethodLatest)
    (h : (retrieveSubredditPosts env searchMethod topic limit subreddit).1 = .ok none) :
    False := by
  rcases hm with hm | hm
  · subst hm
    rw [retrieveSubredditPosts] at h
    rw [if_pos rfl] at h
    cases hs : env.searchPosts subreddit topic limit with
    | error e => rw [hs] at h; simp at h
    | ok r => rw [hs] at h; simp at h
  · subst hm
    rw [retrieveSubredditPosts] at h
    rw [if_neg (by decide), if_pos rfl] at h
    cases hs : env.getPosts subreddit limit with
    | error e => rw [hs] at h; simp at h
    | ok r => rw [hs] at h; simp at h

/-- No retrieval call emits an embedding event. -/
lemma retrieve_trace_no_embed (env : Env) (searchMethod topic : String) (limit : Int)
    (subreddit : String) :
    ∀ ev ∈ (retrieveSubredditPosts env searchMethod topic limit subreddit).2,
      ∀ text, ev ≠ CallEvent.embed text := by
  intro ev hev text
  rw [retrieveSubredditPosts] at hev
  split at hev
  · simp at hev
    subst hev
    simp
  · split at hev
    · simp at hev
      subst hev
      simp
    · simp at hev

/-- Inversion for a successful subreddit loop: every source was retrieved with
a non-nil response, the output is the in-order concatenation over sources of
the in-order mapped items, every per-item collaborator call succeeded, and
every output dto carries the threshold classification of its own score. -/
lemma processSubreddits_ok_spec (env : Env) (searchMethod topic : String)
    (limit : Int) (topicEmbedding : List ℝ) (relevanceThreshold : ℝ) :
    ∀ (subs : List String) (dtos : List SubRedditPostDto),
      (processSubreddits env searchMethod topic limit topicEmbedding relevanceThreshold subs).1 = .ok dtos →
      (∀ s ∈ subs, ∃ r, (retrieveSubredditPosts env searchMethod topic limit s).1 = .ok (some r)) ∧
        dtos.map postKey
          = subs.flatMap (fun s => (retrievedChildren env searchMethod topic limit s).map
              (fun post => (s, post.Data.Title, post.Data.Selftext))) ∧
        (∀ s ∈ subs, ∀ post ∈ retrievedChildren env searchMethod topic limit s,
          itemEvalCallsOk env topic topicEmbedding relevanceThreshold post) ∧
        (∀ dto ∈ dtos, dto.IsRelevant = decide (relevanceThreshold ≤ dto.RelevanceScore)) := by
  intro subs
  induction subs with
  | nil =>
    intro dtos h
    simp [processSubreddits] at h
    subst h
    simp
  | cons s rest ih =>
    intro dtos h
    rcases hret : retrieveSubredditPosts env searchMethod topic limit s with ⟨retres, tr⟩
    simp only [processSubreddits] at h
    rw [hret] at h
    cases retres with
    | error e => simp at h
    | ok posts =>
      cases posts with
      | none => simp [evaluateSubredditPosts] at h
      | some r =>
        simp only [evaluateSubredditPosts] at h
        rcases hev : evalPosts env s topic topicEmbedding relevanceThreshold r.Data.Children with ⟨evres, tr2⟩
        rw [hev] at h
        cases evres with
        | error e => simp at h
        | ok dtos1 =>
          rcases hrec : processSubreddits env searchMethod topic limit topicEmbedding relevanceThreshold rest with ⟨res3, tr3⟩
          rw [hrec] at h
          cases res3 with
          | err e => simp at h
          | nilPanic => simp at h
          | ok more =>
            simp at h
            subst h
            have hev1 : (evalPosts env s topic topicEmbedding relevanceThreshold r.Data.Children).1 = .ok dtos1 := by
              rw [hev]
            have hrec1 : (processSubreddits env searchMethod topic limit topicEmbedding relevanceThreshold rest).1 = .ok more := by
              rw [hrec]
            have hret1 : (retrieveSubredditPosts env searchMethod topic limit s).1 = .ok (some r) := by
              rw [hret]
            have hchildren : retrievedChildren env searchMethod topic limit s = r.Data.Children := by
              simp [retrievedChildren, hret1]
            obtain ⟨hmap1, hcalls1, hclass1⟩ :=
              evalPosts_ok_spec env s topic topicEmbedding relevanceThreshold r.Data.Children dtos1 hev1
            obtain ⟨hretr, hmapr, hcallsr, hclassr⟩ := ih more hrec1
            refine ⟨?_, ?_, ?_, ?_⟩
            · intro q hq
              rcases List.mem_cons.mp hq with hq1 | hq2
              · subst hq1
                exact ⟨r, hret1⟩
              · exact hretr q hq2
            · rw [List.flatMap_cons, List.map_append, hmapr, hchildren, hmap1]
            · intro q hq
              rcases List.mem_cons.mp hq with hq1 | hq2
              · subst hq1
                rw [hchildren]
                exact hcalls1
              · exact hcallsr q hq2
            · intro d hd
              rcases List.mem_append.mp hd with hd1 | hd2
              · exact hclass1 d hd1
              · exact hclassr d hd2

/-- With a valid search method the subreddit loop never dereferences nil. -/
lemma processSubreddits_no_panic (env : Env) (searchMethod topic : String)
    (limit : Int) (topicEmbedding : List ℝ) (relevanceThreshold : ℝ)
    (hm : searchMethod = SearchMethodSearch ∨ searchMethod = SearchMethodLatest) :
    ∀ (subs : List String),
      (processSubreddits env searchMethod topic limit topicEmbedding relevanceThreshold subs).1 ≠ .nilPanic := by
  intro subs
  induction subs with
  | nil =>
    intro h
    simp [processSubreddits] at h
  | cons s rest ih =>
    intro h
    rcases hret : retrieveSubredditPosts env searchMethod topic limit s with ⟨retres, tr⟩
    simp only [processSubreddits] at h
    rw [hret] at h
    cases retres with
    | error e => simp at h
    | ok posts =>
      cases posts with
      | none =>
        exact retrieve_valid_not_none env searchMethod topic limit s hm (by rw [hret])
      | some r =>
        simp only [evaluateSubredditPosts] at h
        rcases hev : evalPosts env s topic topicEmbedding relevanceThreshold r.Data.Children with ⟨evres, tr2⟩
        rw [hev] at h
        cases evres with
        | error e => simp at h
        | ok dtos1 =>
          rcases hrec : processSubreddits env searchMethod topic limit topicEmbedding relevanceThreshold rest with ⟨res3, tr3⟩
          rw [hrec] at h
          cases res3 with
          | ok more => simp at h
          | err e => simp at h
          | nilPanic => exact ih (by rw [hrec])

/-- The subreddit loop with a search method matching no case makes no call and
dereferences nil on the first source. -/
lemma process_invalid_cons (env : Env) (searchMethod topic : String) (limit : Int)
    (topicEmbedding : List ℝ) (relevanceThreshold : ℝ) (s : String) (rest : List String)
    (h1 : searchMethod ≠ SearchMethodSearch) (h2 : searchMethod ≠ SearchMethodLatest) :
    processSubreddits env searchMethod topic limit topicEmbedding relevanceThreshold (s :: rest)
      = (.nilPanic, []) := by
  simp only [processSubreddits]
  rw [retrieve_invalid env searchMethod topic limit s h1 h2]
  rfl

/-- Every embedding event emitted by the subreddit loop is the evaluation text
of an item retrieved, with a non-nil response, from one of the given sources. -/
lemma processSubreddits_trace_spec (env : Env) (searchMethod topic : String)
    (limit : Int) (topicEmbedding : List ℝ) (relevanceThreshold : ℝ) :
    ∀ (subs : List String),
      ∀ ev ∈ (processSubreddits env searchMethod topic limit topicEmbedding relevanceThreshold subs).2,
        ∀ text, ev = CallEvent.embed text →
          ∃ s ∈ subs, ∃ r, (retrieveSubredditPosts env searchMethod topic limit s).1 = .ok (some r) ∧
            ∃ post ∈ r.Data.Children,
              text = post.Data.Title ++ ". " ++ post.Data.Selftext := by
  intro subs
  induction subs with
  | nil =>
    intro ev hev
    simp [processSubreddits] at hev
  | cons s rest ih =>
    intro ev hev text hevtext
    subst hevtext
    rcases hret : retrieveSubredditPosts env searchMethod topic limit s with ⟨retres, tr⟩
    simp only [processSubreddits] at hev
    rw [hret] at hev
    have htr : CallEvent.embed text ∈ tr → False := by
      intro hmem
      have := retrieve_trace_no_embed env searchMethod topic limit s (CallEvent.embed text) (by rw [hret]; exact hmem) text
      exact this rfl
    cases retres with
    | error e =>
      simp at hev
      exact absurd hev htr
    | ok posts =>
      cases posts with
      | none =>
        simp [evaluateSubredditPosts] at hev
        exact absurd hev htr
      | some r =>
        simp only [evaluateSubredditPosts] at hev
        rcases hev2 : evalPosts env s topic topicEmbedding relevanceThreshold r.Data.Children with ⟨evres, tr2⟩
        rw [hev2] at hev
        have hret1 : (retrieveSubredditPosts env searchMethod topic limit s).1 = .ok (some r) := by
          rw [hret]
        have htr2 : CallEvent.embed text ∈ tr2 →
            ∃ q ∈ s :: rest, ∃ r2, (retrieveSubredditPosts env searchMethod topic limit q).1 = .ok (some r2) ∧
              ∃ post ∈ r2.Data.Children, text = post.Data.Title ++ ". " ++ post.Data.Selftext := by
          intro hmem
          have hmem2 : CallEvent.embed text ∈ (evalPosts env s topic topicEmbedding relevanceThreshold r.Data.Children).2 := by
            rw [hev2]
            exact hmem
          rcases evalPosts_trace_spec env s topic topicEmbedding relevanceThreshold r.Data.Children
              (CallEvent.embed text) hmem2 with ⟨post, hpost, heq⟩ | ⟨msgs, heq⟩
          · exact ⟨s, List.mem_cons_self s rest, r, hret1, post, hpost, CallEvent.embed.inj heq⟩
          · exact absurd heq (by simp)
        have hrest : CallEvent.embed text ∈ (processSubreddits env searchMethod topic limit topicEmbedding relevanceThreshold rest).2 →
            ∃ q ∈ s :: rest, ∃ r2, (retrieveSubredditPosts env searchMethod topic limit q).1 = .ok (some r2) ∧
              ∃ post ∈ r2.Data.Children, text = post.Data.Title ++ ". " ++ post.Data.Selftext := by
          intro hmem
          rcases ih (CallEvent.embed text) hmem text rfl with ⟨q, hq, r2, hr2, post, hpost, heq⟩
          exact ⟨q, List.mem_cons_of_mem s hq, r2, hr2, post, hpost, heq⟩
        cases evres with
        | error e =>
          simp at hev
          rcases hev with hev | hev
          · exact absurd hev htr
          · exact htr2 hev
        | ok dtos1 =>
          rcases hrec : processSubreddits env searchMethod topic limit topicEmbedding relevanceThreshold rest with ⟨res3, tr3⟩
          rw [hrec] at hev
          have htr3 : CallEvent.embed text ∈ tr3 → _ := fun hmem => hrest (by rw [hrec]; exact hmem)
          cases res3 with
          | ok more =>
            simp at hev
            rcases hev with hev | hev | hev
            · exact absurd hev htr
            · exact htr2 hev
            · exact htr3 hev
          | err e =>
            simp at hev
            rcases hev with hev | hev | hev
            · exact absurd hev htr
            · exact htr2 hev
            · exact htr3 hev
          | nilPanic =>
            simp at hev
            rcases hev with hev | hev | hev
            · exact absurd hev htr
            · exact htr2 hev
            · exact htr3 hev

/-! Run-level lemmas. -/

/-- Evaluation of the full run when the topic embedding call fails. -/
lemma run_topic_err (env : Env) (req : RelevanceRequestDto) (c : String)
    (h : env.getEmbedding req.Topic = .error c) :
    GetRelevantPosts env req =
      (.err (wrap "error getting topic embedding" c), [CallEvent.embed req.Topic]) := by
  simp [GetRelevantPosts, h]

/-- Length of a flatMap as the sum of the per-element lengths. -/
lemma length_flatMap {β α : Type} (l : List β) (f : β → List α) :
    (l.flatMap f).length = (l.map (fun x => (f x).length)).sum := by
  induction l with
  | nil => simp
  | cons x xs ih => simp [List.flatMap_cons, ih]

/-- Inversion for a successful run: the topic embedding succeeded, every
retrieval succeeded with a non-nil response, every per-item collaborator call
succeeded, the output is the in-order concatenation over sources of the
in-order items, and every output dto is classified against the threshold. -/
lemma run_ok_spec (env : Env) (req : RelevanceRequestDto) (resp : RelevanceResponseDto)
    (h : (GetRelevantPosts env req).1 = .ok resp) :
    ∃ temb, env.getEmbedding req.Topic = .ok temb ∧
      (∀ s ∈ req.Subreddits,
        ∃ r, (retrieveSubredditPosts env req.SearchMethod req.Topic req.Limit s).1 = .ok (some r)) ∧
      (∀ s ∈ req.Subreddits,
        ∀ post ∈ retrievedChildren env req.SearchMethod req.Topic req.Limit s,
          itemEvalCallsOk env req.Topic temb req.RelevanceThreshold post) ∧
      resp.Posts.map postKey
        = req.Subreddits.flatMap (fun s =>
            (retrievedChildren env req.SearchMethod req.Topic req.Limit s).map
              (fun post => (s, post.Data.Title, post.Data.Selftext))) ∧
      (∀ p ∈ resp.Posts, p.IsRelevant = decide (req.RelevanceThreshold ≤ p.RelevanceScore)) := by
  cases hemb : env.getEmbedding req.Topic with
  | error c =>
    rw [run_topic_err env req c hemb] at h
    simp at h
  | ok temb =>
    rcases hp : processSubreddits env req.SearchMethod req.Topic req.Limit temb req.RelevanceThreshold req.Subreddits with ⟨res, tr⟩
    simp only [GetRelevantPosts, hemb] at h
    rw [hp] at h
    cases res with
    | err e => simp at h
    | nilPanic => simp at h
    | ok dtos =>
      simp at h
      obtain ⟨hret, hmap, hcalls, hclass⟩ :=
        processSubreddits_ok_spec env req.SearchMethod req.Topic req.Limit temb
          req.RelevanceThreshold req.Subreddits dtos (by rw [hp])
      subst h
      exact ⟨temb, rfl, hret, hcalls, hmap, hclass⟩

/-- Length consequence of a successful run: one output element per retrieved
item, summed over the sources in request order. -/
lemma run_ok_length (env : Env) (req : RelevanceRequestDto) (resp : RelevanceResponseDto)
    (h : (GetRelevantPosts env req).1 = .ok resp) :
    resp.Posts.length
      = (req.Subreddits.map (fun s =>
          (retrievedChildren env req.SearchMethod req.Topic req.Limit s).length)).sum := by
  obtain ⟨temb, _, _, _, hmap, _⟩ := run_ok_spec env req resp h
  have h1 : resp.Posts.length = (resp.Posts.map postKey).length := by
    rw [List.length_map]
  rw [h1, hmap, length_flatMap]
  simp

/-- C1: with a request carrying one of the two search-method values, the run
is all-or-nothing: it returns an error carrying no posts, or it returns a
response in which the topic embedding, every retrieval, and both collaborator
calls of every retrieved item succeeded, with exactly one result per
retrieved item. -/
theorem c1_all_or_nothing (env : Env) (req : RelevanceRequestDto)
    (hm : req.SearchMethod = SearchMethodSearch ∨ req.SearchMethod = SearchMethodLatest) :
    (∃ e, (GetRelevantPosts env req).1 = .err e) ∨
    (∃ resp, (GetRelevantPosts env req).1 = .ok resp ∧
      (∃ temb, env.getEmbedding req.Topic = .ok temb ∧
        (∀ s ∈ req.Subreddits,
          ∃ r, (retrieveSubredditPosts env req.SearchMethod req.Topic req.Limit s).1 = .ok (some r)) ∧
        (∀ s ∈ req.Subreddits,
          ∀ post ∈ retrievedChildren env req.SearchMethod req.Topic req.Limit s,
            itemEvalCallsOk env req.Topic temb req.RelevanceThreshold post)) ∧
      resp.Posts.length
        = (req.Subreddits.map (fun s =>
            (retrievedChildren env req.SearchMethod req.Topic req.Limit s).length)).sum) := by
  cases hemb : env.getEmbedding req.Topic with
  | error c =>
    exact Or.inl ⟨wrap "error getting topic embedding" c, by rw [run_topic_err env req c hemb]⟩
  | ok temb =>
    rcases hp : processSubreddits env req.SearchMethod req.Topic req.Limit temb req.RelevanceThreshold req.Subreddits with ⟨res, tr⟩
    cases res with
    | err e =>
      refine Or.inl ⟨e, ?_⟩
      simp only [GetRelevantPosts, hemb]
      rw [hp]
    | nilPanic =>
      exact absurd (by rw [hp]) (processSubreddits_no_panic env req.SearchMethod req.Topic req.Limit temb req.RelevanceThreshold hm req.Subreddits)
    | ok dtos =>
      have hok : (GetRelevantPosts env req).1 = .ok ⟨dtos⟩ := by
        simp only [GetRelevantPosts, hemb]
        rw [hp]
      obtain ⟨temb2, htemb2, hret, hcalls, _, _⟩ := run_ok_spec env req ⟨dtos⟩ hok
      obtain rfl : temb = temb2 := Except.ok.inj (by rw [← hemb]; exact htemb2)
      exact Or.inr ⟨⟨dtos⟩, hok, ⟨temb, rfl, hret, hcalls⟩,
        run_ok_length env req ⟨dtos⟩ hok⟩

/-- Witness for C1 at a concrete all-success scenario. -/
theorem c1_all_or_nothing_witness :
    (∃ e, (GetRelevantPosts envOk reqThr1).1 = .err e) ∨
    (∃ resp, (GetRelevantPosts envOk reqThr1).1 = .ok resp ∧
      (∃ temb, envOk.getEmbedding reqThr1.Topic = .ok temb ∧
        (∀ s ∈ reqThr1.Subreddits,
          ∃ r, (retrieveSubredditPosts envOk reqThr1.SearchMethod reqThr1.Topic reqThr1.Limit s).1 = .ok (some r)) ∧
        (∀ s ∈ reqThr1.Subreddits,
          ∀ post ∈ retrievedChildren envOk reqThr1.SearchMethod reqThr1.Topic reqThr1.Limit s,
            itemEvalCallsOk envOk reqThr1.Topic temb reqThr1.RelevanceThreshold post)) ∧
      resp.Posts.length
        = (reqThr1.Subreddits.map (fun s =>
            (retrievedChildren envOk reqThr1.SearchMethod reqThr1.Topic reqThr1.Limit s).length)).sum) :=
  c1_all_or_nothing envOk reqThr1 (Or.inl rfl)

/-! Concrete run evaluations. -/

/-- The all-success run with threshold 1 returns exactly one dto. -/
lemma runThr1_eval : (GetRelevantPosts envOk reqThr1).1 = .ok ⟨[dtoThr1]⟩ := rfl

/-- The all-success run with threshold 0 returns exactly one dto. -/
lemma runThr0_eval : (GetRelevantPosts envOk reqThr0).1 = .ok ⟨[dtoThr0]⟩ := rfl

/-- The run in which the item embeds to the vector opposite to the topic
embedding returns one dto scored with the similarity of opposite vectors. -/
lemma runNeg_eval : (GetRelevantPosts envNeg reqThr0).1 = .ok ⟨[dtoNeg]⟩ := rfl

/-- The run whose item embedding fails returns the triply wrapped cause. -/
lemma runBoom_eval : (GetRelevantPosts envBoom reqThr1).1 =
    .err "error evaluating subreddit posts: error getting relevance score: error getting embedding: boom" :=
  rfl

/-- The empty-subreddits run against the broken embedding collaborator fails
and still issues the topic embedding call. -/
lemma runDown_eval : GetRelevantPosts envDown reqEmpty =
    (.err "error getting topic embedding: llm down", [CallEvent.embed "t"]) := rfl

/-- The empty-subreddits run against the healthy collaborators succeeds with
an empty result and issues exactly the topic embedding call. -/
lemma runEmptyOk_eval : GetRelevantPosts envOk reqEmpty =
    (.ok ⟨[]⟩, [CallEvent.embed "t"]) := rfl

/-- The threshold-1 dto is classified relevant: its score equals the
threshold and the boundary is inclusive. -/
lemma dtoThr1_isRelevant : dtoThr1.IsRelevant = true :=
  decide_eq_true_iff.mpr (by rw [cos_one_one])

/-- The opposite-vectors dto is classified not relevant under threshold 0. -/
lemma dtoNeg_isRelevant : dtoNeg.IsRelevant = false :=
  decide_eq_false_iff_not.mpr (by rw [cos_neg_one]; norm_num)

/-- C2: in every successful run, the output equals, source by source in
request order and item by item in retrieval order, the retrieved items (each
output element carrying its source identifier and the retrieved title and
body), and the output length is the sum of the per-source retrieved counts. -/
theorem c2_output_order (env : Env) (req : RelevanceRequestDto)
    (resp : RelevanceResponseDto) (h : (GetRelevantPosts env req).1 = .ok resp) :
    resp.Posts.map postKey
      = req.Subreddits.flatMap (fun s =>
          (retrievedChildren env req.SearchMethod req.Topic req.Limit s).map
            (fun post => (s, post.Data.Title, post.Data.Selftext))) ∧
    resp.Posts.length
      = (req.Subreddits.map (fun s =>
          (retrievedChildren env req.SearchMethod req.Topic req.Limit s).length)).sum := by
  obtain ⟨_, _, _, _, hmap, _⟩ := run_ok_spec env req resp h
  exact ⟨hmap, run_ok_length env req resp h⟩

/-- Witness for C2 at the concrete all-success run. -/
theorem c2_output_order_witness :
    (⟨[dtoThr1]⟩ : RelevanceResponseDto).Posts.map postKey
      = reqThr1.Subreddits.flatMap (fun s =>
          (retrievedChildren envOk reqThr1.SearchMethod reqThr1.Topic reqThr1.Limit s).map
            (fun post => (s, post.Data.Title, post.Data.Selftext))) ∧
    (⟨[dtoThr1]⟩ : RelevanceResponseDto).Posts.length
      = (reqThr1.Subreddits.map (fun s =>
          (retrievedChildren envOk reqThr1.SearchMethod reqThr1.Topic reqThr1.Limit s).length)).sum :=
  c2_output_order envOk reqThr1 ⟨[dtoThr1]⟩ runThr1_eval

/-- C3: in every successful run, every returned post is classified relevant
exactly when its similarity score reaches the threshold, and the boundary is
inclusive: a score equal to the threshold is classified relevant. -/
theorem c3_inclusive_threshold (env : Env) (req : RelevanceRequestDto)
    (resp : RelevanceResponseDto) (h : (GetRelevantPosts env req).1 = .ok resp) :
    ∀ p ∈ resp.Posts,
      (p.IsRelevant = true ↔ req.RelevanceThreshold ≤ p.RelevanceScore) ∧
      (p.RelevanceScore = req.RelevanceThreshold → p.IsRelevant = true) := by
  obtain ⟨_, _, _, _, _, hclass⟩ := run_ok_spec env req resp h
  intro p hp
  have hc := hclass p hp
  constructor
  · rw [hc]
    exact decide_eq_true_iff
  · intro heq
    rw [hc]
    exact decide_eq_true_iff.mpr (le_of_eq heq.symm)

/-- Witness for C3 at the concrete run whose score equals its threshold. -/
theorem c3_inclusive_threshold_witness :
    (dtoThr1.IsRelevant = true ↔ reqThr1.RelevanceThreshold ≤ dtoThr1.RelevanceScore) ∧
    (dtoThr1.RelevanceScore = reqThr1.RelevanceThreshold → dtoThr1.IsRelevant = true) :=
  c3_inclusive_threshold envOk reqThr1 ⟨[dtoThr1]⟩ runThr1_eval dtoThr1 (by simp)

/-- C4 counterexample: a run with relevance threshold 0 in which the single
evaluated item is classified NOT relevant, because its similarity score is
the similarity of opposite vectors, -1, and the code classifies with
score >= threshold, not with threshold == 0 short-circuiting. -/
theorem c4_counterexample :
    reqThr0.RelevanceThreshold = 0 ∧
    (GetRelevantPosts envNeg reqThr0).1 = .ok ⟨[dtoNeg]⟩ ∧
    dtoNeg.RelevanceScore = -1 ∧
    dtoNeg.IsRelevant = false :=
  ⟨rfl, runNeg_eval, cos_neg_one, dtoNeg_isRelevant⟩

/-- C4 as amended: with relevance threshold 0, every evaluated item whose
similarity score is nonnegative is classified relevant (items with negative
scores are not). -/
theorem c4_threshold_zero_amended (env : Env) (req : RelevanceRequestDto)
    (resp : RelevanceResponseDto) (h0 : req.RelevanceThreshold = 0)
    (h : (GetRelevantPosts env req).1 = .ok resp) :
    ∀ p ∈ resp.Posts, 0 ≤ p.RelevanceScore → p.IsRelevant = true := by
  obtain ⟨_, _, _, _, _, hclass⟩ := run_ok_spec env req resp h
  intro p hp hscore
  rw [hclass p hp, h0]
  exact decide_eq_true_iff.mpr hscore

/-- Witness for the amended C4 at the concrete threshold-0 run. -/
theorem c4_threshold_zero_amended_witness : dtoThr0.IsRelevant = true :=
  c4_threshold_zero_amended envOk reqThr0 ⟨[dtoThr0]⟩ rfl runThr0_eval dtoThr0
    (by simp) (by show (0 : ℝ) ≤ CosineSimilarity [1] [1]; rw [cos_one_one]; norm_num)

/-- C6 counterexample: a run with an empty source list in which the topic
embedding call fails does NOT succeed: GetRelevantPosts returns the wrapped
topic-embedding error, not the empty result list. -/
theorem c6_counterexample :
    reqEmpty.Subreddits = [] ∧
    (GetRelevantPosts envDown reqEmpty).1 = .err "error getting topic embedding: llm down" ∧
    (GetRelevantPosts envDown reqEmpty).1 ≠ .ok ⟨[]⟩ := by
  refine ⟨rfl, by rw [runDown_eval], ?_⟩
  rw [runDown_eval]
  intro h
  exact GoResult.noConfusion h

/-- C6 as amended: in every run the trace starts with the topic-embedding
call and every further embedding call is the evaluation text of an item
retrieved from one of the requested sources (so the topic embedding is
issued exactly once); and a run with an empty source list succeeds with an
empty result, with the topic embedding as its only call, whenever the
topic-embedding call itself succeeds. -/
theorem c6_topic_embedding_once (env : Env) (req : RelevanceRequestDto) :
    (req.Subreddits = [] → ∀ temb, env.getEmbedding req.Topic = .ok temb →
      GetRelevantPosts env req = (.ok ⟨[]⟩, [CallEvent.embed req.Topic])) ∧
    (∃ rest, (GetRelevantPosts env req).2 = CallEvent.embed req.Topic :: rest ∧
      ∀ text, CallEvent.embed text ∈ rest →
        ∃ s ∈ req.Subreddits, ∃ r,
          (retrieveSubredditPosts env req.SearchMethod req.Topic req.Limit s).1 = .ok (some r) ∧
          ∃ post ∈ r.Data.Children,
            text = post.Data.Title ++ ". " ++ post.Data.Selftext) := by
  constructor
  · intro he temb htemb
    simp [GetRelevantPosts, htemb, he, processSubreddits]
  · cases hemb : env.getEmbedding req.Topic with
    | error c =>
      refine ⟨[], ?_, by simp⟩
      rw [run_topic_err env req c hemb]
    | ok temb =>
      rcases hp : processSubreddits env req.SearchMethod req.Topic req.Limit temb req.RelevanceThreshold req.Subreddits with ⟨res, tr⟩
      refine ⟨tr, ?_, ?_⟩
      · simp only [GetRelevantPosts, hemb]
        rw [hp]
        cases res <;> rfl
      · intro text hmem
        have hmem2 : CallEvent.embed text ∈ (processSubreddits env req.SearchMethod req.Topic req.Limit temb req.RelevanceThreshold req.Subreddits).2 := by
          rw [hp]
          exact hmem
        exact processSubreddits_trace_spec env req.SearchMethod req.Topic req.Limit temb
          req.RelevanceThreshold req.Subreddits (CallEvent.embed text) hmem2 text rfl

/-- Witness for the amended C6: the concrete empty-source run succeeds with
an empty result and exactly one call, the topic embedding. -/
theorem c6_topic_embedding_once_witness :
    GetRelevantPosts envOk reqEmpty = (.ok ⟨[]⟩, [CallEvent.embed reqEmpty.Topic]) :=
  (c6_topic_embedding_once envOk reqEmpty).1 rfl [1] rfl

/-- C9: a request whose search method is neither search nor latest and whose
source list is non-empty drives the run, once the topic embedding has
succeeded, into the nil dereference: the outcome is neither a normal return
nor an error, and no retrieval call is made (the trace holds only the topic
embedding call). -/
theorem c9_invalid_method (env : Env) (req : RelevanceRequestDto) (temb : List ℝ)
    (h1 : req.SearchMethod ≠ SearchMethodSearch)
    (h2 : req.SearchMethod ≠ SearchMethodLatest)
    (h3 : req.Subreddits ≠ []) (h4 : env.getEmbedding req.Topic = .ok temb) :
    (GetRelevantPosts env req).1 = .nilPanic ∧
    (GetRelevantPosts env req).2 = [CallEvent.embed req.Topic] := by
  cases hsubs : req.Subreddits with
  | nil => exact absurd hsubs h3
  | cons s rest =>
    have hp := process_invalid_cons env req.SearchMethod req.Topic req.Limit temb
      req.RelevanceThreshold s rest h1 h2
    constructor
    · simp only [GetRelevantPosts, h4, hsubs]
      rw [hp]
    · simp only [GetRelevantPosts, h4, hsubs]
      rw [hp]

/-- Witness for C9 at a concrete request with search method bogus. -/
theorem c9_invalid_method_witness :
    (GetRelevantPosts envOk reqBogus).1 = .nilPanic ∧
    (GetRelevantPosts envOk reqBogus).2 = [CallEvent.embed reqBogus.Topic] :=
  c9_invalid_method envOk reqBogus [1] (by decide) (by decide) (by simp [reqBogus]) rfl

/-- A message that wraps a context contains that context followed by the
separator as a contiguous substring. -/
lemma wrappedWith_infix (ctx msg : String) (h : wrappedWith ctx msg) :
    (ctx ++ ": ").data <:+: msg.data := by
  obtain ⟨pre, rest, hmsg⟩ := h
  subst hmsg
  exact ⟨pre.data, rest.data, by simp [wrap, String.data_append, List.append_assoc]⟩

set_option maxRecDepth 8000 in
/-- C8 counterexample: in a concrete run whose single item embedding fails,
the error returned to the caller is the cause wrapped with the contexts of
the Go code, and the context string item embedding appears nowhere in it. -/
theorem c8_counterexample :
    (GetRelevantPosts envBoom reqThr1).1
      = .err "error evaluating subreddit posts: error getting relevance score: error getting embedding: boom" ∧
    ¬ wrappedWith "item embedding"
        "error evaluating subreddit posts: error getting relevance score: error getting embedding: boom" := by
  refine ⟨runBoom_eval, fun h => ?_⟩
  have hinf := wrappedWith_infix "item embedding" _ h
  revert hinf
  decide

/-- C8 as amended: when the embedding request of an item fails, the error the
pipeline returns to the caller is the cause wrapped with the context
"error getting embedding", rewrapped with "error getting relevance score" and
then "error evaluating subreddit posts" (not with the literal context
"item embedding"). Stated for a single-source request, at any item position
whose predecessors all evaluate successfully. -/
theorem c8_wrap_contexts (env : Env) (req : RelevanceRequestDto) (s : String)
    (r : RedditResponse) (temb : List ℝ) (pre : List RedditChild)
    (p : RedditChild) (rest : List RedditChild) (c : String)
    (hm : req.SearchMethod = SearchMethodSearch)
    (hsubs : req.Subreddits = [s])
    (htopic : env.getEmbedding req.Topic = .ok temb)
    (hsearch : env.searchPosts s req.Topic req.Limit = .ok r)
    (hchildren : r.Data.Children = pre ++ p :: rest)
    (hpre : ∀ q ∈ pre, ∃ dto, (evalPost env s req.Topic temb req.RelevanceThreshold q).1 = .ok dto)
    (hfail : env.getEmbedding (p.Data.Title ++ ". " ++ p.Data.Selftext) = .error c) :
    (GetRelevantPosts env req).1
      = .err (wrap "error evaluating subreddit posts"
          (wrap "error getting relevance score" (wrap "error getting embedding" c))) ∧
    wrappedWith "error getting embedding"
      (wrap "error evaluating subreddit posts"
        (wrap "error getting relevance score" (wrap "error getting embedding" c))) := by
  constructor
  · have hretr : retrieveSubredditPosts env req.SearchMethod req.Topic req.Limit s
        = (.ok (some r), [CallEvent.search s req.Topic req.Limit]) := by
      rw [hm]
      simp [retrieveSubredditPosts, hsearch]
    have heval := evalPosts_prefix_err env s req.Topic temb req.RelevanceThreshold pre p rest c hpre hfail
    rcases hev : evalPosts env s req.Topic temb req.RelevanceThreshold (pre ++ p :: rest) with ⟨evres, tr2⟩
    rw [hev] at heval
    cases evres with
    | ok dtos => simp at heval
    | error e =>
      simp at heval
      subst heval
      simp only [GetRelevantPosts, htopic, hsubs]
      simp only [processSubreddits]
      rw [hretr]
      simp only [evaluateSubredditPosts]
      rw [hchildren, hev]
  · refine ⟨"error evaluating subreddit posts: error getting relevance score: ", c, ?_⟩
    simp only [wrap, ← String.append_assoc]
    rfl

/-- Witness for the amended C8 at the concrete failing-item run. -/
theorem c8_wrap_contexts_witness :
    (GetRelevantPosts envBoom reqThr1).1
      = .err (wrap "error evaluating subreddit posts"
          (wrap "error getting relevance score" (wrap "error getting embedding" "boom"))) ∧
    wrappedWith "error getting embedding"
      (wrap "error evaluating subreddit posts"
        (wrap "error getting relevance score" (wrap "error getting embedding" "boom"))) :=
  c8_wrap_contexts envBoom reqThr1 "s" respOne [1] [] post1 [] "boom"
    rfl rfl rfl rfl rfl (by simp) rfl
